import Mathlib

/-!
# Verification of the DORA dashboard metrics-derivation engine

Shallow embedding of the metrics-derivation module of the `dora_pipeline`
repository (`src/client/src/components/dashboard/summary-cards.tsx`, third
document: the `dora-calculations` library) and of the repository-summary
CSV parser (`src/unnamed/part_005` / the repo-summary page).

Modelling conventions:
* JavaScript numbers are modelled as `ℚ` (the spec and the code use plain
  arithmetic: sums, means, divisions by constants); `NaN` for the CSV
  parser is modelled as `Option ℤ` with `none` = NaN.
* Timestamp strings (`created_at_utc`, …) are always consumed through
  `new Date(s).getTime()`; we model each such field directly as the parsed
  timestamp in milliseconds (`ℤ`).
* `Date.now()` / `new Date()` is an explicit parameter `now : ℤ`.
* JavaScript `Array.prototype.sort` is in place and stable; its value is
  modelled with `List.insertionSort` (stable), and its heap effect is
  modelled separately by `storeAfterFilterAndMetrics` below.
-/

/-- Milliseconds in a day (`24 * 60 * 60 * 1000`). -/
def dayMs : Int := 86400000

/-- Milliseconds in an hour (`1000 * 60 * 60`). -/
def hourMs : Int := 3600000

/-- One record of `fact_deployment` (timestamps pre-parsed to ms). -/
structure Deployment where
  deployment_id : Int
  environment : String
  created_at_utc : Int
  finished_at_utc : Int
  state : String
  actor : String
  sha : String
  gitRef : String
  log_url : Option String
  source_fetched_at_utc : String
  etl_run_id : String
deriving DecidableEq, Repr

/-- One record of `fact_pr`. -/
structure PullRequest where
  pr_number : Int
  pr_merged_at_utc : Int
  pr_merge_sha : String
  author : String
deriving DecidableEq, Repr

/-- One record of `fact_incident` (`created_utc` pre-parsed to ms). -/
structure Incident where
  incident_id : String
  title : String
  created_utc : Int
  closed_utc : Int
  duration_minutes : ℚ
  source_fetched_at_utc : String
  etl_run_id : String
deriving DecidableEq, Repr

/-- One record of `dora_events` (`when_utc` pre-parsed to ms). -/
structure DoraEvent where
  event_id : Int
  event_type : String
  when_utc : Int
  sha : Option String
  pr_number : Option Int
  deployment_id : Option Int
  incident_id : Option String
  title : Option String
  state : Option String
deriving DecidableEq, Repr

/-- One row of `dora_summary_daily` (`date` pre-parsed to ms). -/
structure DailyRollup where
  date : Int
  deploys : ℚ
  failed_deploys : ℚ
  cfr : ℚ
  avg_lt_hours : ℚ
  mttr_min : ℚ
deriving DecidableEq, Repr

/-- The `DoraData` record store; the four optional collections are
`Option` exactly as in the TypeScript interface. -/
structure DoraData where
  fact_deployment : List Deployment
  fact_pr : Option (List PullRequest)
  fact_incident : Option (List Incident)
  dora_events : Option (List DoraEvent)
  dora_summary_daily : Option (List DailyRollup)
deriving DecidableEq, Repr

/-- The `FilteredData` view; `filterDataByDays` always materialises every
collection as an array (`|| []`), so all fields are plain lists. -/
structure FilteredData where
  fact_deployment : List Deployment
  dora_summary_daily : List DailyRollup
  fact_pr : List PullRequest
  fact_incident : List Incident
  dora_events : List DoraEvent
deriving DecidableEq, Repr

/-- Embedding of `filterDataByDays(data, days)`, with the ambient clock
`now` made explicit; `days = none` is the "All Time" branch. -/
def filterDataByDays (data : DoraData) (days : Option Int) (now : Int) :
    FilteredData :=
  match days with
  | none =>
      { fact_deployment := data.fact_deployment
        dora_summary_daily := (data.dora_summary_daily.getD []).reverse
        fact_pr := data.fact_pr.getD []
        fact_incident := data.fact_incident.getD []
        dora_events := data.dora_events.getD [] }
  | some n =>
      let cutoffDate := now - n * dayMs
      { fact_deployment :=
          data.fact_deployment.filter (fun d =>
            cutoffDate ≤ d.created_at_utc)
        dora_summary_daily :=
          ((data.dora_summary_daily.getD []).filter (fun d =>
            cutoffDate ≤ d.date)).reverse
        fact_pr :=
          (data.fact_pr.getD []).filter (fun pr =>
            cutoffDate ≤ pr.pr_merged_at_utc)
        fact_incident :=
          (data.fact_incident.getD []).filter (fun incident =>
            cutoffDate ≤ incident.created_utc)
        dora_events :=
          (data.dora_events.getD []).filter (fun event =>
            cutoffDate ≤ event.when_utc) }

/-- Test for state equal to success or inactive (the JS `===` pair). -/
def isSuccessState (s : String) : Bool :=
  s == "success" || s == "inactive"

/-- Test for state equal to error or failure (the JS `===` pair). -/
def isFailureState (s : String) : Bool :=
  s == "error" || s == "failure"

/-- Length of the filter of deployments whose state is success or
inactive. -/
def successCount (l : List Deployment) : Nat :=
  (l.filter (fun d => isSuccessState d.state)).length

/-- Length of the filter of deployments whose state is error or
failure. -/
def failureCount (l : List Deployment) : Nat :=
  (l.filter (fun d => isFailureState d.state)).length

/-- Embedding of `calculateDeploymentTrendText(filteredData,
originalData)`; the
`filteredData` argument is accepted but never read, exactly as in the
source. `toFixed(0)` is modelled by `jsToFixed0`. -/
def jsToFixed0 (q : ℚ) : Int := ⌊q + 1 / 2⌋

def calculateDeploymentTrendText (_filteredData : FilteredData)
    (originalData : DoraData) (now : Int) : String :=
  let lastWeekStart := now - 7 * dayMs
  let allDeployments := originalData.fact_deployment
  let lastWeekDeployments := allDeployments.filter (fun d =>
    lastWeekStart ≤ d.created_at_utc && d.created_at_utc ≤ now)
  let weekCount := lastWeekDeployments.length
  if weekCount = 0 then
    "0 deployments in last week"
  else
    let successfulWeek := successCount lastWeekDeployments
    let weekSuccessRate := jsToFixed0 ((successfulWeek : ℚ) / weekCount * 100)
    toString weekCount ++ " deployments in last week, with " ++
      toString weekSuccessRate ++ "% success rate"

/-- Result of `calculateDeploymentCounts`. -/
structure DeployCounts where
  yesterday : Nat
  lastWeek : Nat
  lastMonth : Nat
deriving DecidableEq, Repr

/-- Embedding of `calculateDeploymentCounts(originalData)`: fixed
1/7/30-day lookbacks anchored at `now`, over the full store. -/
def calculateDeploymentCounts (originalData : DoraData) (now : Int) :
    DeployCounts :=
  let yesterday := now - 1 * dayMs
  let lastWeek := now - 7 * dayMs
  let lastMonth := now - 30 * dayMs
  { yesterday :=
      (originalData.fact_deployment.filter (fun d =>
        yesterday ≤ d.created_at_utc && d.created_at_utc ≤ now)).length
    lastWeek :=
      (originalData.fact_deployment.filter (fun d =>
        lastWeek ≤ d.created_at_utc && d.created_at_utc ≤ now)).length
    lastMonth :=
      (originalData.fact_deployment.filter (fun d =>
        lastMonth ≤ d.created_at_utc && d.created_at_utc ≤ now)).length }

/-- The two-valued (good or bad) CFR trend status. -/
inductive TrendStatus where
  | good
  | bad
deriving DecidableEq, Repr

/-- Embedding of `calculateCFRTrendStatus(filteredData, originalData,
timeFilterDays)`. -/
def calculateCFRTrendStatus (filteredData : FilteredData)
    (originalData : DoraData) (timeFilterDays : Option Int) (now : Int) :
    TrendStatus :=
  match timeFilterDays with
  | none =>
      let totalDeployments := originalData.fact_deployment.length
      let failedDeployments := failureCount originalData.fact_deployment
      let cfrPercentage : ℚ :=
        if totalDeployments > 0 then
          (failedDeployments : ℚ) / totalDeployments * 100
        else 0
      if cfrPercentage < 20 then .good else .bad
  | some n =>
      let currentFailures := failureCount filteredData.fact_deployment
      let currentPeriodStart := now - n * dayMs
      let previousPeriodStart := currentPeriodStart - n * dayMs
      let previousFailures :=
        (originalData.fact_deployment.filter (fun d =>
          previousPeriodStart ≤ d.created_at_utc &&
          d.created_at_utc < currentPeriodStart &&
          isFailureState d.state)).length
      if currentFailures ≤ previousFailures then .good else .bad

/-- Durations `(finished - created) / (1000 * 60 * 60)` per deployment, then
`.filter(time => time > 0)`. -/
def leadTimesOf (l : List Deployment) : List ℚ :=
  (l.map (fun d =>
    ((d.finished_at_utc - d.created_at_utc : Int) : ℚ) / (hourMs : ℚ))).filter
    (fun time => 0 < time)

/-- Spread maximum `Math.max(...l)` for a non-empty list, as used behind a
`length > 0` guard. -/
def jsMax (l : List ℚ) : ℚ :=
  match l with
  | [] => 0
  | x :: xs => xs.foldl max x

/-- Spread minimum `Math.min(...l)` for a non-empty list, as used behind a
`length > 0` guard. -/
def jsMin (l : List ℚ) : ℚ :=
  match l with
  | [] => 0
  | x :: xs => xs.foldl min x

/-- The comparator `(a, b) => b.created_at_utc - a.created_at_utc`
(most recent first), as the relation a stable sort orders by. -/
def deployDescLE (a b : Deployment) : Prop :=
  b.created_at_utc ≤ a.created_at_utc

instance : DecidableRel deployDescLE := fun a b =>
  inferInstanceAs (Decidable (b.created_at_utc ≤ a.created_at_utc))

/-- Value of `deployments.sort((a, b) => b.created - a.created)`:
the JavaScript sort is stable, hence equal to stable insertion sort. -/
def sortDeploymentsDesc (l : List Deployment) : List Deployment :=
  l.insertionSort deployDescLE

/-- The comparator `(a, b) => b.created_utc - a.created_utc` on incidents. -/
def incidentDescLE (a b : Incident) : Prop :=
  b.created_utc ≤ a.created_utc

instance : DecidableRel incidentDescLE := fun a b =>
  inferInstanceAs (Decidable (b.created_utc ≤ a.created_utc))

/-- Value of `fact_incident.sort((a, b) => b.created - a.created)`. -/
def sortIncidentsDesc (l : List Incident) : List Incident :=
  l.insertionSort incidentDescLE

/-- The `avgDeploymentFreq / avgLeadTime / avgCFR / avgMTTR` block of
`calculateDoraMetrics` (lines 381–428): summary-based aggregates when the
rollup sequence is non-empty, raw-record fallback otherwise. -/
def deriveAggregates (filteredData : FilteredData) (now : Int) :
    ℚ × ℚ × ℚ × ℚ :=
  let deployments := filteredData.fact_deployment
  let summary := filteredData.dora_summary_daily
  let totalDeployments := deployments.length
  if summary.length > 0 then
    let validData := summary.filter (fun d => d.deploys > 0)
    if validData.length > 0 then
      ((validData.foldl (fun sum d => sum + d.deploys) (0 : ℚ)) / validData.length,
       (validData.foldl (fun sum d => sum + d.avg_lt_hours) (0 : ℚ)) /
         validData.length,
       (validData.foldl (fun sum d => sum + d.cfr) (0 : ℚ)) / validData.length * 100,
       summary.foldl (fun sum d => sum + d.mttr_min / 60) (0 : ℚ))
    else (0, 0, 0, 0)
  else
    let spanDays : ℚ :=
      match deployments.getLast? with
      | some d => ((now - d.created_at_utc : Int) : ℚ) / (dayMs : ℚ)
      | none => 1
    let avgDeploymentFreq :=
      (totalDeployments : ℚ) / ((max 1 ⌈spanDays⌉ : Int) : ℚ)
    let leadTimes := leadTimesOf deployments
    let avgLeadTime :=
      if leadTimes.length > 0 then
        (leadTimes.foldl (fun sum time => sum + time) (0 : ℚ)) / leadTimes.length
      else 0
    let failedDeployments := failureCount deployments
    let avgCFR :=
      if totalDeployments > 0 then
        (failedDeployments : ℚ) / totalDeployments * 100
      else 0
    let avgMTTR :=
      if filteredData.fact_incident.length > 0 then
        (filteredData.fact_incident.foldl
          (fun sum incident => sum + incident.duration_minutes) (0 : ℚ)) / 60
      else if filteredData.dora_events.length > 0 then
        let incidents :=
          filteredData.dora_events.filter (fun event =>
            event.event_type == "incident")
        if incidents.length > 0 then (incidents.length : ℚ) * 3 else 0
      else 0
    (avgDeploymentFreq, avgLeadTime, avgCFR, avgMTTR)

/-- The inner `getTrend(current, previous)` helper of
`calculateDoraMetrics`. -/
def getTrend (current previous : List ℚ) : ℚ :=
  if previous.length = 0 ∨ current.length = 0 then 0
  else
    let currentAvg := (current.foldl (fun sum d => sum + d) (0 : ℚ)) / current.length
    let previousAvg :=
      (previous.foldl (fun sum d => sum + d) (0 : ℚ)) / previous.length
    if previousAvg = 0 then 0
    else (currentAvg - previousAvg) / previousAvg * 100

/-- The `DoraMetrics` snapshot (all numeric fields `ℚ`, counts `ℕ`). -/
structure DoraMetrics where
  deploymentFrequency : ℚ
  deploymentFrequencyTrend : ℚ
  deploymentFrequencyTrendText : String
  deploymentsYesterday : Nat
  deploymentsLastWeek : Nat
  deploymentsLastMonth : Nat
  leadTime : ℚ
  leadTimeTrend : ℚ
  maxLeadTime : ℚ
  minLeadTime : ℚ
  lastDeploymentLeadTime : ℚ
  cfr : ℚ
  cfrTrend : ℚ
  cfrTrendStatus : TrendStatus
  failedDeployments : Nat
  successfulDeployments : Nat
  mttr : ℚ
  mttrTrend : ℚ
  maxMTTR : ℚ
  minMTTR : ℚ
  lastIncidentMTTR : ℚ
  totalDeployments : Nat
  successRate : ℚ
  totalIncidents : Nat
  totalPRs : Nat
deriving DecidableEq, Repr

/-- Embedding of `calculateDoraMetrics(filteredData, originalData,
timeFilterDays)`. -/
def calculateDoraMetrics (filteredData : FilteredData)
    (originalData : DoraData) (timeFilterDays : Option Int) (now : Int) :
    DoraMetrics :=
  let deployments := filteredData.fact_deployment
  let summary := filteredData.dora_summary_daily
  let deploymentCounts := calculateDeploymentCounts originalData now
  let totalDeployments := deployments.length
  let successfulDeployments := successCount deployments
  let failedDeployments := failureCount deployments
  let successRate : ℚ :=
    if totalDeployments > 0 then
      (successfulDeployments : ℚ) / totalDeployments * 100
    else 0
  let aggs := deriveAggregates filteredData now
  let allLeadTimes := leadTimesOf deployments
  let maxLeadTime := if allLeadTimes.length > 0 then jsMax allLeadTimes else 0
  let minLeadTime := if allLeadTimes.length > 0 then jsMin allLeadTimes else 0
  let sortedDeployments := sortDeploymentsDesc deployments
  let lastDeploymentLeadTime : ℚ :=
    match sortedDeployments.head? with
    | some lastDeploy =>
        ((lastDeploy.finished_at_utc - lastDeploy.created_at_utc : Int) : ℚ) /
          (hourMs : ℚ)
    | none => 0
  let incidentDurations :=
    filteredData.fact_incident.map (fun incident =>
      incident.duration_minutes / 60)
  let maxMTTR :=
    if filteredData.fact_incident.length > 0 then jsMax incidentDurations
    else 0
  let minMTTR :=
    if filteredData.fact_incident.length > 0 then jsMin incidentDurations
    else 0
  let lastIncidentMTTR : ℚ :=
    if filteredData.fact_incident.length > 0 then
      match (sortIncidentsDesc filteredData.fact_incident).head? with
      | some incident => incident.duration_minutes / 60
      | none => 0
    else 0
  let midPoint := summary.length / 2
  let recentPeriod := summary.take midPoint
  let previousPeriod := summary.drop midPoint
  { deploymentFrequency := aggs.1
    deploymentFrequencyTrend :=
      getTrend (recentPeriod.map (fun d => d.deploys))
        (previousPeriod.map (fun d => d.deploys))
    deploymentFrequencyTrendText :=
      calculateDeploymentTrendText filteredData originalData now
    deploymentsYesterday := deploymentCounts.yesterday
    deploymentsLastWeek := deploymentCounts.lastWeek
    deploymentsLastMonth := deploymentCounts.lastMonth
    leadTime := aggs.2.1
    leadTimeTrend :=
      getTrend (recentPeriod.map (fun d => d.avg_lt_hours))
        (previousPeriod.map (fun d => d.avg_lt_hours))
    maxLeadTime := maxLeadTime
    minLeadTime := minLeadTime
    lastDeploymentLeadTime := lastDeploymentLeadTime
    cfr := aggs.2.2.1
    cfrTrend :=
      getTrend (recentPeriod.map (fun d => d.cfr))
        (previousPeriod.map (fun d => d.cfr))
    cfrTrendStatus :=
      calculateCFRTrendStatus filteredData originalData timeFilterDays now
    failedDeployments := failedDeployments
    successfulDeployments := successfulDeployments
    mttr := aggs.2.2.2
    mttrTrend :=
      getTrend (recentPeriod.map (fun d => d.mttr_min / 60))
        (previousPeriod.map (fun d => d.mttr_min / 60))
    maxMTTR := maxMTTR
    minMTTR := minMTTR
    lastIncidentMTTR := lastIncidentMTTR
    totalDeployments := totalDeployments
    successRate := successRate
    totalIncidents :=
      if filteredData.fact_incident.length ≠ 0 then
        filteredData.fact_incident.length
      else
        (filteredData.dora_events.filter (fun event =>
          event.event_type == "incident")).length
    totalPRs := filteredData.fact_pr.length }

/-- Heap effect of running `filterDataByDays(data, days)` followed by
`calculateDoraMetrics` on the resulting view.

For `days = null`, `filterDataByDays` returns `data.fact_deployment`,
`data.fact_pr`, `data.fact_incident` and `data.dora_events` by reference
(only the rollups go through `slice()`), and `calculateDoraMetrics` then
calls the in-place `Array.prototype.sort` on `filteredData.fact_deployment`
(line 441) and, when non-empty, on `filteredData.fact_incident` (line 463);
so those two store collections end up sorted. For a finite window every
collection of the view is a fresh `filter(...)` result, so the store is
untouched. No other statement of the pipeline mutates an array. -/
def storeAfterFilterAndMetrics (data : DoraData) (days : Option Int)
    (_now : Int) : DoraData :=
  match days with
  | none =>
      { data with
        fact_deployment := sortDeploymentsDesc data.fact_deployment
        fact_incident := data.fact_incident.map sortIncidentsDesc }
  | some _ => data

/-- Embedding of `getDeploymentStatusCounts(deployments)` (names and fixed display
colors elided; the two bucket counts). -/
def getDeploymentStatusCounts (deployments : List Deployment) : Nat × Nat :=
  (successCount deployments, failureCount deployments)

/-! ## The repository-summary CSV parser (`parseCSV`) -/

/-- JavaScript split for a single-character separator, on the character
list of the string (JavaScript: `"".split(x) = [""]`, separators at the
ends produce empty pieces). -/
def splitListOn (sep : Char) : List Char → List (List Char)
  | [] => [[]]
  | c :: cs =>
      match splitListOn sep cs with
      | [] => [[]]
      | h :: t => if c = sep then [] :: h :: t else (c :: h) :: t

/-- JavaScript split on strings. -/
def jsSplit (sep : Char) (s : String) : List String :=
  (splitListOn sep s.toList).map (fun cs => ⟨cs⟩)

/-- JavaScript trim: strip whitespace from both ends. -/
def jsTrim (s : String) : String :=
  ⟨((s.toList.dropWhile Char.isWhitespace).reverse.dropWhile
      Char.isWhitespace).reverse⟩

/-- Value of a digit run, most significant first. -/
def digitsVal (l : List Char) : Int :=
  l.foldl (fun a c => a * 10 + ((c.toNat : Int) - 48)) 0

/-- Embedding of `parseInt(s, 10)`: skip leading whitespace, optional sign, then a
non-empty run of decimal digits (trailing garbage ignored); `none`
models the `NaN` result when no digit is found. -/
def parseIntJS (s : String) : Option Int :=
  let l := s.toList.dropWhile Char.isWhitespace
  let signAndRest : Int × List Char :=
    match l with
    | '-' :: rest => (-1, rest)
    | '+' :: rest => (1, rest)
    | _ => (1, l)
  let digits := signAndRest.2.takeWhile Char.isDigit
  if digits.isEmpty then none else some (signAndRest.1 * digitsVal digits)

/-- The row object built by the forEach over headers (each trimmed
header keyed to the trimmed value at the same index, or the empty
string), as an assignment sequence walking the headers positionally. -/
def buildRow : List String → List String → List (String × String)
  | [], _ => []
  | h :: hs, [] => (jsTrim h, "") :: buildRow hs []
  | h :: hs, v :: vs => (jsTrim h, jsTrim v) :: buildRow hs vs

/-- Indexing `row[k]`: JavaScript property lookup where a later assignment of the
same key overwrites an earlier one; `none` models `undefined`. -/
def rowLookup (row : List (String × String)) (k : String) : Option String :=
  row.foldl (fun acc p => if p.1 = k then some p.2 else acc) none

/-- Fallback `row[k] || d`: both `undefined` and the empty string are falsy. -/
def jsOrDefault (v : Option String) (d : String) : String :=
  match v with
  | some s => if s = "" then d else s
  | none => d

/-- A parsed `RepoMetrics` row; numeric fields are `Option ℤ` with
`none` modelling `NaN` (the result of `parseInt` on a non-numeric
string). -/
structure RepoMetrics where
  repoName : String
  displayName : String
  prsOpened : Option Int
  prsMerged : Option Int
  issuesReadyForQA : Option Int
  issuesQACompleted : Option Int
  fetchedAt : String
deriving DecidableEq, Repr

/-- The per-line body of the loop of `parseCSV`. -/
def parseRow (headers values : List String) : RepoMetrics :=
  let row := buildRow headers values
  { repoName := jsOrDefault (rowLookup row "repo_name") ""
    displayName := jsOrDefault (rowLookup row "display_name") ""
    prsOpened := parseIntJS (jsOrDefault (rowLookup row "prs_opened") "0")
    prsMerged := parseIntJS (jsOrDefault (rowLookup row "prs_merged") "0")
    issuesReadyForQA :=
      parseIntJS (jsOrDefault (rowLookup row "issues_ready_for_qa") "0")
    issuesQACompleted :=
      parseIntJS (jsOrDefault (rowLookup row "issues_qa_completed") "0")
    fetchedAt := jsOrDefault (rowLookup row "fetched_at") "" }

/-- Embedding of `parseCSV(csvText)` from the repository-summary page. -/
def parseCSV (csvText : String) : List RepoMetrics :=
  let lines := jsSplit '\n' (jsTrim csvText)
  if lines.length < 2 then []
  else
    match lines with
    | [] => []
    | hdr :: rest =>
        let headers := jsSplit ',' hdr
        rest.map (fun line => parseRow headers (jsSplit ',' line))

/-- NaN-propagating addition on JavaScript numbers restricted to
integer-or-NaN values. -/
def nanAdd (a b : Option Int) : Option Int :=
  match a, b with
  | some x, some y => some (x + y)
  | _, _ => none

/-- The `prsOpened` component of the `SummaryCard` totals
(`metrics.reduce((acc, repo) => ... acc.prsOpened + repo.prsOpened ...)`). -/
def totalPrsOpened (ms : List RepoMetrics) : Option Int :=
  ms.foldl (fun acc m => nanAdd acc m.prsOpened) (some 0)

/-! ## General lemmas -/

section Lemmas

/-- A state string cannot be classified both successful and failed. -/
theorem success_failure_disjoint (s : String) :
    ¬(isSuccessState s = true ∧ isFailureState s = true) := by
  rintro ⟨hs, hf⟩
  simp only [isSuccessState, isFailureState, Bool.or_eq_true, beq_iff_eq] at hs hf
  rcases hs with h1 | h1 <;> rcases hf with h2 | h2 <;> rw [h1] at h2 <;>
    exact absurd h2 (by decide)

theorem filter_two_length_le {α : Type} (p q : α → Bool)
    (h : ∀ x, ¬(p x = true ∧ q x = true)) (l : List α) :
    (l.filter p).length + (l.filter q).length ≤ l.length := by
  induction l with
  | nil => simp
  | cons a l ih =>
      cases hp : p a <;> cases hq : q a
      · simp only [List.filter_cons, hp, hq, Bool.false_eq_true, if_false,
          List.length_cons]
        omega
      · simp only [List.filter_cons, hp, hq, Bool.false_eq_true, if_false,
          if_true, List.length_cons]
        omega
      · simp only [List.filter_cons, hp, hq, Bool.false_eq_true, if_false,
          if_true, List.length_cons]
        omega
      · exact absurd ⟨hp, hq⟩ (h a)

theorem filter_two_length_eq_iff {α : Type} (p q : α → Bool)
    (h : ∀ x, ¬(p x = true ∧ q x = true)) (l : List α) :
    ((l.filter p).length + (l.filter q).length = l.length) ↔
      ∀ x ∈ l, p x = true ∨ q x = true := by
  induction l with
  | nil => simp
  | cons a l ih =>
      cases hp : p a <;> cases hq : q a
      · have hle := filter_two_length_le p q h l
        simp only [List.filter_cons, hp, hq, Bool.false_eq_true, if_false,
          List.length_cons]
        constructor
        · intro he; omega
        · intro hall
          rcases hall a (List.mem_cons_self a l) with h' | h'
          · rw [hp] at h'; cases h'
          · rw [hq] at h'; cases h'
      · simp only [List.filter_cons, hp, hq, Bool.false_eq_true, if_false,
          if_true, List.length_cons]
        constructor
        · intro he x hx
          rcases List.mem_cons.mp hx with hx | hx
          · subst hx; exact Or.inr hq
          · exact ih.mp (by omega) x hx
        · intro hall
          have := ih.mpr (fun x hx => hall x (List.mem_cons_of_mem a hx))
          omega
      · simp only [List.filter_cons, hp, hq, Bool.false_eq_true, if_false,
          if_true, List.length_cons]
        constructor
        · intro he x hx
          rcases List.mem_cons.mp hx with hx | hx
          · subst hx; exact Or.inl hp
          · exact ih.mp (by omega) x hx
        · intro hall
          have := ih.mpr (fun x hx => hall x (List.mem_cons_of_mem a hx))
          omega
      · exact absurd ⟨hp, hq⟩ (h a)

theorem foldl_max_init_le (xs : List ℚ) (a : ℚ) : a ≤ xs.foldl max a := by
  induction xs generalizing a with
  | nil => simp
  | cons x xs ih =>
      simpa using le_trans (le_max_left a x) (ih (max a x))

theorem mem_le_foldl_max (xs : List ℚ) (a : ℚ) :
    ∀ y ∈ xs, y ≤ xs.foldl max a := by
  induction xs generalizing a with
  | nil => simp
  | cons x xs ih =>
      intro y hy
      rcases List.mem_cons.mp hy with hy | hy
      · subst hy
        simpa using le_trans (le_max_right a y) (foldl_max_init_le xs (max a y))
      · simpa using ih (max a x) y hy

theorem foldl_min_mem (xs : List ℚ) (a : ℚ) :
    xs.foldl min a ∈ a :: xs := by
  induction xs generalizing a with
  | nil => simp
  | cons x xs ih =>
      have hmem := ih (min a x)
      rw [List.foldl_cons]
      rcases List.mem_cons.mp hmem with h | h
      · rcases min_choice a x with hm | hm
        · exact List.mem_cons.mpr (Or.inl (h.trans hm))
        · exact List.mem_cons.mpr
            (Or.inr (List.mem_cons.mpr (Or.inl (h.trans hm))))
      · exact List.mem_cons.mpr (Or.inr (List.mem_cons.mpr (Or.inr h)))

/-- Every member of a non-empty list is at most `jsMax` of the list. -/
theorem le_jsMax (l : List ℚ) : ∀ y ∈ l, y ≤ jsMax l := by
  cases l with
  | nil => simp
  | cons x xs =>
      intro y hy
      rcases List.mem_cons.mp hy with hy | hy
      · subst hy
        simpa [jsMax] using foldl_max_init_le xs y
      · simpa [jsMax] using mem_le_foldl_max xs x y hy

/-- `jsMin` of a non-empty list is a member of the list. -/
theorem jsMin_mem (l : List ℚ) (h : l ≠ []) : jsMin l ∈ l := by
  cases l with
  | nil => exact absurd rfl h
  | cons x xs => simpa [jsMin] using foldl_min_mem xs x

/-- Summing `f` over a list where `f` is constantly `v`. -/
theorem foldl_add_const {α : Type} (f : α → ℚ) (v : ℚ) (l : List α)
    (h : ∀ x ∈ l, f x = v) :
    ∀ c : ℚ, l.foldl (fun s x => s + f x) c = c + l.length * v := by
  induction l with
  | nil => intro c; simp
  | cons a l ih =>
      intro c
      have ha := h a (List.mem_cons_self a l)
      have hrec := ih (fun x hx => h x (List.mem_cons_of_mem a hx)) (c + f a)
      rw [List.foldl_cons, hrec, ha]
      simp only [List.length_cons]
      push_cast
      ring

instance : IsTotal Deployment deployDescLE :=
  ⟨fun a b => le_total b.created_at_utc a.created_at_utc⟩

instance : IsTrans Deployment deployDescLE :=
  ⟨fun _ _ _ h1 h2 => le_trans h2 h1⟩

/-- The head of the stable descending sort has the maximal
`created_at_utc` of the list. -/
theorem head_sortDeploymentsDesc_max (l : List Deployment) (d0 : Deployment)
    (h : (sortDeploymentsDesc l).head? = some d0) :
    ∀ d ∈ l, d.created_at_utc ≤ d0.created_at_utc := by
  intro d hd
  have hsorted := List.sorted_insertionSort deployDescLE l
  have hperm := List.perm_insertionSort deployDescLE l
  have hd' : d ∈ l.insertionSort deployDescLE := hperm.mem_iff.mpr hd
  unfold sortDeploymentsDesc at h
  cases hs : l.insertionSort deployDescLE with
  | nil => rw [hs] at h; cases h
  | cons a t =>
      rw [hs] at h hd' hsorted
      simp only [List.head?_cons, Option.some.injEq] at h
      subst h
      rcases List.mem_cons.mp hd' with hd'' | hd''
      · subst hd''; exact le_refl _
      · exact (List.sorted_cons.mp hsorted).1 d hd''

/-- Splitting a pairwise-ordered list at any index: every element of the
first part is related to every element of the rest. -/
theorem pairwise_take_drop {α : Type} (R : α → α → Prop) (l : List α)
    (h : l.Pairwise R) (n : Nat) :
    ∀ a ∈ l.take n, ∀ b ∈ l.drop n, R a b := by
  have h' := (List.take_append_drop n l) ▸ h
  exact (List.pairwise_append.mp h').2.2

theorem foldl_lookup_acc (k : String) (row : List (String × String)) :
    ∀ acc : Option String, (∀ p ∈ row, p.1 ≠ k) →
      row.foldl (fun acc p => if p.1 = k then some p.2 else acc) acc = acc := by
  induction row with
  | nil => intro acc _; rfl
  | cons q row ih =>
      intro acc hq
      have h1 : q.1 ≠ k := hq q (List.mem_cons_self q row)
      simp only [List.foldl_cons, if_neg h1]
      exact ih acc (fun p hp => hq p (List.mem_cons_of_mem q hp))

theorem rowLookup_of_not_mem (row : List (String × String)) (k : String)
    (h : ∀ p ∈ row, p.1 ≠ k) : rowLookup row k = none :=
  foldl_lookup_acc k row none h

theorem buildRow_fst_mem (hs : List String) :
    ∀ (vs : List String) (p : String × String),
      p ∈ buildRow hs vs → p.1 ∈ hs.map jsTrim := by
  induction hs with
  | nil => intro vs p hp; cases hp
  | cons h hs ih =>
      intro vs p hp
      cases vs with
      | nil =>
          rcases List.mem_cons.mp hp with hp' | hp'
          · subst hp'; exact List.mem_cons_self _ _
          · exact List.mem_cons_of_mem _ (ih [] p hp')
      | cons v vs =>
          rcases List.mem_cons.mp hp with hp' | hp'
          · subst hp'; exact List.mem_cons_self _ _
          · exact List.mem_cons_of_mem _ (ih vs p hp')

theorem buildRow_append_one (hs : List String) :
    ∀ (vs : List String) (k v : String), vs.length = hs.length →
      buildRow (hs ++ [k]) (vs ++ [v]) =
        buildRow hs vs ++ [(jsTrim k, jsTrim v)] := by
  induction hs with
  | nil =>
      intro vs k v hlen
      cases vs with
      | nil => rfl
      | cons _ _ => simp at hlen
  | cons h hs ih =>
      intro vs k v hlen
      cases vs with
      | nil => simp at hlen
      | cons w vs =>
          simp only [List.length_cons] at hlen
          have hlen' : vs.length = hs.length := by omega
          simp only [List.cons_append, buildRow, List.append_eq]
          rw [ih vs k v hlen']

theorem rowLookup_append_ne (row : List (String × String))
    (p : String × String) (k : String) (h : p.1 ≠ k) :
    rowLookup (row ++ [p]) k = rowLookup row k := by
  simp [rowLookup, List.foldl_append, if_neg h]

end Lemmas

/-! ## Concrete fixtures -/

/-- A deployment record with the fields the engine reads made explicit. -/
def mkDeployment (id created finished : Int) (st : String) : Deployment :=
  { deployment_id := id, environment := "production",
    created_at_utc := created, finished_at_utc := finished, state := st,
    actor := "dev", sha := "s", gitRef := "main", log_url := none,
    source_fetched_at_utc := "fetched", etl_run_id := "run" }

/-- A rollup row with the fields the engine reads made explicit. -/
def mkRollup (date : Int) (deploys cfr lt mttr : ℚ) : DailyRollup :=
  { date := date, deploys := deploys, failed_deploys := 0, cfr := cfr,
    avg_lt_hours := lt, mttr_min := mttr }

/-- The store whose every collection is empty or absent. -/
def emptyStore : DoraData :=
  { fact_deployment := [], fact_pr := none, fact_incident := none,
    dora_events := none, dora_summary_daily := none }

/-! ## C4 -/

/-- C4: `calculateDoraMetrics` is total (it is a Lean function into
`DoraMetrics`, so every input yields a fully populated snapshot); a view
with zero deployments yields `totalDeployments`, `successfulDeployments`,
`failedDeployments` and `successRate` all `0`; and on the store whose
every collection is empty or absent the whole numeric snapshot is zero. -/
theorem calculateDoraMetrics_total_and_zero :
    (∀ (v : FilteredData) (store : DoraData) (days : Option Int) (now : Int),
      v.fact_deployment = [] →
        (calculateDoraMetrics v store days now).totalDeployments = 0 ∧
        (calculateDoraMetrics v store days now).successfulDeployments = 0 ∧
        (calculateDoraMetrics v store days now).failedDeployments = 0 ∧
        (calculateDoraMetrics v store days now).successRate = 0) ∧
    (∀ now : Int,
      calculateDoraMetrics (filterDataByDays emptyStore none now) emptyStore
          none now =
        { deploymentFrequency := 0, deploymentFrequencyTrend := 0,
          deploymentFrequencyTrendText := "0 deployments in last week",
          deploymentsYesterday := 0, deploymentsLastWeek := 0,
          deploymentsLastMonth := 0, leadTime := 0, leadTimeTrend := 0,
          maxLeadTime := 0, minLeadTime := 0, lastDeploymentLeadTime := 0,
          cfr := 0, cfrTrend := 0, cfrTrendStatus := .good,
          failedDeployments := 0, successfulDeployments := 0, mttr := 0,
          mttrTrend := 0, maxMTTR := 0, minMTTR := 0, lastIncidentMTTR := 0,
          totalDeployments := 0, successRate := 0, totalIncidents := 0,
          totalPRs := 0 }) := by
  constructor
  · intro v store days now hv
    refine ⟨?_, ?_, ?_, ?_⟩ <;>
      simp [calculateDoraMetrics, successCount, failureCount, hv]
  · intro now
    norm_num [calculateDoraMetrics, filterDataByDays, emptyStore,
      deriveAggregates, calculateDeploymentCounts, calculateDeploymentTrendText,
      calculateCFRTrendStatus, successCount, failureCount, leadTimesOf,
      sortDeploymentsDesc, sortIncidentsDesc, List.insertionSort, getTrend,
      jsMax, jsMin]

/-- Witness for C4 at a concrete empty view. -/
theorem calculateDoraMetrics_total_and_zero_witness :
    (filterDataByDays emptyStore (some 7) 0).fact_deployment = [] ∧
    (calculateDoraMetrics (filterDataByDays emptyStore (some 7) 0) emptyStore
        (some 7) 0).successRate = 0 :=
  ⟨rfl,
    (calculateDoraMetrics_total_and_zero.1
      (filterDataByDays emptyStore (some 7) 0) emptyStore (some 7) 0
      rfl).2.2.2⟩

/-! ## C9 -/

/-- C9: `deploymentsYesterday`, `deploymentsLastWeek`,
`deploymentsLastMonth` and `deploymentFrequencyTrendText` depend only on
the full store and `now`: any two filtered views and any two window
values give identical results; and the trend text has the documented
"`<count>` deployments in last week[, with `<rate>`% success rate]"
shape over the store's fixed last-7-day sub-collection. -/
theorem fixed_lookback_window_independence :
    ∀ (store : DoraData) (v1 v2 : FilteredData) (d1 d2 : Option Int)
      (now : Int),
      (calculateDoraMetrics v1 store d1 now).deploymentsYesterday =
          (calculateDoraMetrics v2 store d2 now).deploymentsYesterday ∧
      (calculateDoraMetrics v1 store d1 now).deploymentsLastWeek =
          (calculateDoraMetrics v2 store d2 now).deploymentsLastWeek ∧
      (calculateDoraMetrics v1 store d1 now).deploymentsLastMonth =
          (calculateDoraMetrics v2 store d2 now).deploymentsLastMonth ∧
      (calculateDoraMetrics v1 store d1 now).deploymentFrequencyTrendText =
          (calculateDoraMetrics v2 store d2 now).deploymentFrequencyTrendText ∧
      (calculateDoraMetrics v1 store d1 now).deploymentFrequencyTrendText =
        (if (store.fact_deployment.filter (fun d =>
              now - 7 * dayMs ≤ d.created_at_utc &&
                d.created_at_utc ≤ now)).length = 0 then
          "0 deployments in last week"
        else
          toString (store.fact_deployment.filter (fun d =>
              now - 7 * dayMs ≤ d.created_at_utc &&
                d.created_at_utc ≤ now)).length ++
            " deployments in last week, with " ++
            toString (jsToFixed0
              ((successCount (store.fact_deployment.filter (fun d =>
                  now - 7 * dayMs ≤ d.created_at_utc &&
                    d.created_at_utc ≤ now)) : ℚ) /
                (store.fact_deployment.filter (fun d =>
                  now - 7 * dayMs ≤ d.created_at_utc &&
                    d.created_at_utc ≤ now)).length * 100)) ++
            "% success rate") :=
  fun _ _ _ _ _ _ => ⟨rfl, rfl, rfl, rfl, rfl⟩

/-! ## C7 -/

/-- Store for the C7 scenario: two failed deployments in the last 30
days, three failed deployments in the preceding 30-day period. -/
def storeC7 : DoraData :=
  { fact_deployment :=
      [mkDeployment 1 (90 * dayMs) (90 * dayMs) "failure",
       mkDeployment 2 (80 * dayMs) (80 * dayMs) "error",
       mkDeployment 3 (85 * dayMs) (85 * dayMs) "success",
       mkDeployment 4 (65 * dayMs) (65 * dayMs) "failure",
       mkDeployment 5 (60 * dayMs) (60 * dayMs) "failure",
       mkDeployment 6 (50 * dayMs) (50 * dayMs) "error"]
    fact_pr := none, fact_incident := none, dora_events := none,
    dora_summary_daily := none }

/-- C7: under the unbounded window `calculateCFRTrendStatus` is
`good` iff the whole-store failure rate (`0` when the store is empty) is
below 20%; under a finite window of `N` days it is `good` iff the failed
count of the view is at most the failed count in `[now − 2N, now − N)`;
and the 2-vs-3 scenario yields `good`. -/
theorem cfrTrendStatus_spec :
    (∀ (v : FilteredData) (store : DoraData) (now : Int),
      (calculateCFRTrendStatus v store none now = .good ↔
        (if store.fact_deployment.length > 0 then
          (failureCount store.fact_deployment : ℚ) /
            store.fact_deployment.length * 100
        else 0) < 20)) ∧
    (∀ (v : FilteredData) (store : DoraData) (N now : Int),
      (calculateCFRTrendStatus v store (some N) now = .good ↔
        failureCount v.fact_deployment ≤
          (store.fact_deployment.filter (fun d =>
            now - 2 * N * dayMs ≤ d.created_at_utc &&
              (d.created_at_utc < now - N * dayMs &&
                isFailureState d.state))).length)) ∧
    calculateCFRTrendStatus (filterDataByDays storeC7 (some 30) (100 * dayMs))
      storeC7 (some 30) (100 * dayMs) = .good := by
  refine ⟨?_, ?_, ?_⟩
  · intro v store now
    by_cases h :
        (if store.fact_deployment.length > 0 then
          (failureCount store.fact_deployment : ℚ) /
            store.fact_deployment.length * 100
        else 0) < 20 <;>
      simp [calculateCFRTrendStatus, h]
  · intro v store N now
    have harith : now - 2 * N * dayMs = now - N * dayMs - N * dayMs := by ring
    rw [harith]
    by_cases h :
        failureCount v.fact_deployment ≤
          (store.fact_deployment.filter (fun d =>
            now - N * dayMs - N * dayMs ≤ d.created_at_utc &&
              (d.created_at_utc < now - N * dayMs &&
                isFailureState d.state))).length <;>
      simp [calculateCFRTrendStatus, Bool.and_assoc, h]
  · decide

/-! ## C3 -/

/-- C3: the null window returns every record of every collection
(rollups reversed, ascending when the stored order was descending), and
for `N > 0` each collection of the `N`-day view contains exactly the
records of the null view whose governing timestamp is at least
`now − N` days. -/
theorem filterDataByDays_spec :
    ∀ (data : DoraData) (now : Int),
      ((filterDataByDays data none now).fact_deployment =
          data.fact_deployment ∧
        (filterDataByDays data none now).fact_pr = data.fact_pr.getD [] ∧
        (filterDataByDays data none now).fact_incident =
          data.fact_incident.getD [] ∧
        (filterDataByDays data none now).dora_events =
          data.dora_events.getD [] ∧
        (filterDataByDays data none now).dora_summary_daily =
          (data.dora_summary_daily.getD []).reverse ∧
        ((data.dora_summary_daily.getD []).Pairwise
            (fun a b => b.date ≤ a.date) →
          (filterDataByDays data none now).dora_summary_daily.Pairwise
            (fun a b => a.date ≤ b.date))) ∧
      ∀ N : Int, 0 < N →
        ((∀ d : Deployment,
            d ∈ (filterDataByDays data (some N) now).fact_deployment ↔
              d ∈ (filterDataByDays data none now).fact_deployment ∧
                now - N * dayMs ≤ d.created_at_utc) ∧
          (∀ pr : PullRequest,
            pr ∈ (filterDataByDays data (some N) now).fact_pr ↔
              pr ∈ (filterDataByDays data none now).fact_pr ∧
                now - N * dayMs ≤ pr.pr_merged_at_utc) ∧
          (∀ i : Incident,
            i ∈ (filterDataByDays data (some N) now).fact_incident ↔
              i ∈ (filterDataByDays data none now).fact_incident ∧
                now - N * dayMs ≤ i.created_utc) ∧
          (∀ e : DoraEvent,
            e ∈ (filterDataByDays data (some N) now).dora_events ↔
              e ∈ (filterDataByDays data none now).dora_events ∧
                now - N * dayMs ≤ e.when_utc) ∧
          (∀ r : DailyRollup,
            r ∈ (filterDataByDays data (some N) now).dora_summary_daily ↔
              r ∈ (filterDataByDays data none now).dora_summary_daily ∧
                now - N * dayMs ≤ r.date)) := by
  intro data now
  constructor
  · refine ⟨rfl, rfl, rfl, rfl, rfl, ?_⟩
    intro hp
    simp only [filterDataByDays]
    rw [List.pairwise_reverse]
    exact hp
  · intro N _
    refine ⟨?_, ?_, ?_, ?_, ?_⟩ <;> intro x <;>
      simp [filterDataByDays, List.mem_filter, List.mem_reverse]

/-- Store for the C3 witness: one in-window and one out-of-window
deployment. -/
def storeC3 : DoraData :=
  { fact_deployment :=
      [mkDeployment 1 (9 * dayMs) (9 * dayMs) "success",
       mkDeployment 2 0 0 "success"]
    fact_pr := none, fact_incident := none, dora_events := none,
    dora_summary_daily := none }

/-- Witness for C3 at a concrete store: the 7-day window keeps the
recent deployment and drops the old one. -/
theorem filterDataByDays_spec_witness :
    mkDeployment 1 (9 * dayMs) (9 * dayMs) "success" ∈
      (filterDataByDays storeC3 (some 7) (10 * dayMs)).fact_deployment ∧
    mkDeployment 2 0 0 "success" ∉
      (filterDataByDays storeC3 (some 7) (10 * dayMs)).fact_deployment := by
  constructor
  · exact (((filterDataByDays_spec storeC3 (10 * dayMs)).2 7
      (by norm_num)).1 _).mpr ⟨by decide, by decide⟩
  · intro hmem
    have h := ((((filterDataByDays_spec storeC3 (10 * dayMs)).2 7
      (by norm_num)).1 _).mp hmem).2
    exact absurd h (by decide)

/-! ## C5 -/

/-- C5: the success/failure classification of `calculateDoraMetrics`
and `getDeploymentStatusCounts` is by state membership in
{success, inactive} and {error, failure}; the two tallies sum to at most
the total with equality exactly when no other state occurs; and the
success rate lies in `[0, 100]` and is `0` for an empty view. -/
theorem deployment_classification_spec :
    ∀ (v : FilteredData) (store : DoraData) (days : Option Int) (now : Int),
      ((calculateDoraMetrics v store days now).successfulDeployments =
          successCount v.fact_deployment ∧
        (calculateDoraMetrics v store days now).failedDeployments =
          failureCount v.fact_deployment ∧
        getDeploymentStatusCounts v.fact_deployment =
          (successCount v.fact_deployment, failureCount v.fact_deployment)) ∧
      (∀ s : String,
        isSuccessState s = true ↔ s = "success" ∨ s = "inactive") ∧
      (∀ s : String,
        isFailureState s = true ↔ s = "error" ∨ s = "failure") ∧
      ((calculateDoraMetrics v store days now).successfulDeployments +
          (calculateDoraMetrics v store days now).failedDeployments ≤
        (calculateDoraMetrics v store days now).totalDeployments) ∧
      ((calculateDoraMetrics v store days now).successfulDeployments +
          (calculateDoraMetrics v store days now).failedDeployments =
          (calculateDoraMetrics v store days now).totalDeployments ↔
        ∀ d ∈ v.fact_deployment,
          isSuccessState d.state = true ∨ isFailureState d.state = true) ∧
      (0 ≤ (calculateDoraMetrics v store days now).successRate ∧
        (calculateDoraMetrics v store days now).successRate ≤ 100) ∧
      (v.fact_deployment.length = 0 →
        (calculateDoraMetrics v store days now).successRate = 0) := by
  intro v store days now
  have hdisj : ∀ d : Deployment,
      ¬(isSuccessState d.state = true ∧ isFailureState d.state = true) :=
    fun d => success_failure_disjoint d.state
  refine ⟨⟨rfl, rfl, rfl⟩, ?_, ?_, ?_, ?_, ?_, ?_⟩
  · intro s; simp [isSuccessState]
  · intro s; simp [isFailureState]
  · show successCount v.fact_deployment + failureCount v.fact_deployment ≤
      v.fact_deployment.length
    exact filter_two_length_le _ _ hdisj v.fact_deployment
  · show successCount v.fact_deployment + failureCount v.fact_deployment =
      v.fact_deployment.length ↔ _
    exact filter_two_length_eq_iff _ _ hdisj v.fact_deployment
  · show 0 ≤ (if v.fact_deployment.length > 0 then
        (successCount v.fact_deployment : ℚ) / v.fact_deployment.length * 100
      else 0) ∧
      (if v.fact_deployment.length > 0 then
        (successCount v.fact_deployment : ℚ) / v.fact_deployment.length * 100
      else 0) ≤ 100
    constructor
    · split
      · positivity
      · norm_num
    · split
      · next h =>
          have hpos : (0 : ℚ) < v.fact_deployment.length := by exact_mod_cast h
          have hle : (successCount v.fact_deployment : ℚ) ≤
              v.fact_deployment.length := by
            exact_mod_cast List.length_filter_le _ v.fact_deployment
          have h1 : (successCount v.fact_deployment : ℚ) /
              v.fact_deployment.length ≤ 1 := (div_le_one hpos).mpr hle
          calc (successCount v.fact_deployment : ℚ) /
                v.fact_deployment.length * 100 ≤ 1 * 100 :=
                  mul_le_mul_of_nonneg_right h1 (by norm_num)
            _ = 100 := by norm_num
      · next => norm_num
  · intro h0
    show (if v.fact_deployment.length > 0 then
        (successCount v.fact_deployment : ℚ) / v.fact_deployment.length * 100
      else 0) = 0
    rw [if_neg (by omega)]

/-- Witness for C5 at a concrete view with one success, one failure and
one unclassified state. -/
def viewC5 : FilteredData :=
  { fact_deployment :=
      [mkDeployment 1 0 0 "success", mkDeployment 2 0 0 "failure",
       mkDeployment 3 0 0 "queued"]
    dora_summary_daily := [], fact_pr := [], fact_incident := [],
    dora_events := [] }

theorem deployment_classification_spec_witness :
    (calculateDoraMetrics viewC5 emptyStore none 0).successfulDeployments +
        (calculateDoraMetrics viewC5 emptyStore none 0).failedDeployments ≤
      (calculateDoraMetrics viewC5 emptyStore none 0).totalDeployments ∧
    ¬((calculateDoraMetrics viewC5 emptyStore none 0).successfulDeployments +
        (calculateDoraMetrics viewC5 emptyStore none 0).failedDeployments =
      (calculateDoraMetrics viewC5 emptyStore none 0).totalDeployments) := by
  constructor
  · exact (deployment_classification_spec viewC5 emptyStore none 0).2.2.2.1
  · intro he
    have hall :=
      ((deployment_classification_spec viewC5 emptyStore none 0).2.2.2.2.1).mp
        he
    have := hall (mkDeployment 3 0 0 "queued") (by decide)
    exact absurd this (by decide)

/-! ## C1 -/

/-- C1 (amended): whenever the view's rollup sequence has at least
one row with `deploys > 0`, the four headline aggregates come from the
rollups: frequency, lead time and cfr are arithmetic means over the
rows with `deploys > 0` (cfr scaled by 100), and mttr is the *sum* of
`mttr_min / 60` over *all* rollup rows; with uniform `mttr_min = val`
over K rows the sum is `K * (val / 60)`. -/
theorem rollup_aggregates_spec :
    ∀ (v : FilteredData) (store : DoraData) (days : Option Int) (now : Int),
      v.dora_summary_daily.filter (fun d => d.deploys > 0) ≠ [] →
      ((calculateDoraMetrics v store days now).deploymentFrequency =
          ((v.dora_summary_daily.filter (fun d => d.deploys > 0)).foldl
              (fun sum d => sum + d.deploys) (0 : ℚ)) /
            (v.dora_summary_daily.filter (fun d => d.deploys > 0)).length ∧
        (calculateDoraMetrics v store days now).leadTime =
          ((v.dora_summary_daily.filter (fun d => d.deploys > 0)).foldl
              (fun sum d => sum + d.avg_lt_hours) (0 : ℚ)) /
            (v.dora_summary_daily.filter (fun d => d.deploys > 0)).length ∧
        (calculateDoraMetrics v store days now).cfr =
          ((v.dora_summary_daily.filter (fun d => d.deploys > 0)).foldl
              (fun sum d => sum + d.cfr) (0 : ℚ)) /
            (v.dora_summary_daily.filter (fun d => d.deploys > 0)).length *
            100 ∧
        (calculateDoraMetrics v store days now).mttr =
          v.dora_summary_daily.foldl
            (fun sum d => sum + d.mttr_min / 60) (0 : ℚ) ∧
        ∀ val : ℚ, (∀ r ∈ v.dora_summary_daily, r.mttr_min = val) →
          (calculateDoraMetrics v store days now).mttr =
            v.dora_summary_daily.length * (val / 60)) := by
  intro v store days now hval
  have hs : v.dora_summary_daily ≠ [] := by
    intro h
    rw [h] at hval
    exact hval rfl
  have hlen : v.dora_summary_daily.length > 0 := List.length_pos.mpr hs
  have hvlen : (v.dora_summary_daily.filter
      (fun d => d.deploys > 0)).length > 0 := List.length_pos.mpr hval
  have h1 : (calculateDoraMetrics v store days now).deploymentFrequency =
      (deriveAggregates v now).1 := rfl
  have h2 : (calculateDoraMetrics v store days now).leadTime =
      (deriveAggregates v now).2.1 := rfl
  have h3 : (calculateDoraMetrics v store days now).cfr =
      (deriveAggregates v now).2.2.1 := rfl
  have h4 : (calculateDoraMetrics v store days now).mttr =
      (deriveAggregates v now).2.2.2 := rfl
  have hag : deriveAggregates v now =
      (((v.dora_summary_daily.filter (fun d => d.deploys > 0)).foldl
          (fun sum d => sum + d.deploys) (0 : ℚ)) /
          (v.dora_summary_daily.filter (fun d => d.deploys > 0)).length,
        ((v.dora_summary_daily.filter (fun d => d.deploys > 0)).foldl
          (fun sum d => sum + d.avg_lt_hours) (0 : ℚ)) /
          (v.dora_summary_daily.filter (fun d => d.deploys > 0)).length,
        ((v.dora_summary_daily.filter (fun d => d.deploys > 0)).foldl
          (fun sum d => sum + d.cfr) (0 : ℚ)) /
          (v.dora_summary_daily.filter (fun d => d.deploys > 0)).length * 100,
        v.dora_summary_daily.foldl
          (fun sum d => sum + d.mttr_min / 60) (0 : ℚ)) := by
    simp only [deriveAggregates, if_pos hlen, if_pos hvlen]
  refine ⟨?_, ?_, ?_, ?_, ?_⟩
  · rw [h1, hag]
  · rw [h2, hag]
  · rw [h3, hag]
  · rw [h4, hag]
  · intro val hv
    rw [h4, hag]
    show v.dora_summary_daily.foldl
        (fun sum d => sum + d.mttr_min / 60) (0 : ℚ) = _
    have := foldl_add_const (fun d => d.mttr_min / 60) (val / 60)
      v.dora_summary_daily
      (fun x hx => by show x.mttr_min / 60 = val / 60; rw [hv x hx]) 0
    simpa using this

/-- Store for the C1 witness: the scenario-A rollups (stored
newest-first), no raw records. -/
def storeC1 : DoraData :=
  { fact_deployment := [], fact_pr := none, fact_incident := none,
    dora_events := none,
    dora_summary_daily :=
      some [mkRollup (2 * dayMs) 4 0 2 0, mkRollup dayMs 2 (1 / 2) 4 60] }

/-- Witness for C1: on the scenario-A rollups the amended theorem gives
the mttr sum over all rows. -/
theorem rollup_aggregates_spec_witness :
    (filterDataByDays storeC1 none (3 * dayMs)).dora_summary_daily.filter
        (fun d => d.deploys > 0) ≠ [] ∧
    (calculateDoraMetrics (filterDataByDays storeC1 none (3 * dayMs)) storeC1
        none (3 * dayMs)).mttr =
      (filterDataByDays storeC1 none (3 * dayMs)).dora_summary_daily.foldl
        (fun sum d => sum + d.mttr_min / 60) (0 : ℚ) := by
  have hne : (filterDataByDays storeC1 none (3 * dayMs)).dora_summary_daily.filter
      (fun d => d.deploys > 0) ≠ [] := by
    intro hcontra
    norm_num [filterDataByDays, storeC1, mkRollup] at hcontra
    simp at hcontra
  exact ⟨hne,
    (rollup_aggregates_spec (filterDataByDays storeC1 none (3 * dayMs)) storeC1
      none (3 * dayMs) hne).2.2.2.1⟩

/-- Store refuting C1 as stated: a non-empty rollup sequence whose only
row has `deploys = 0` but `mttr_min = 60`. -/
def storeC1cex : DoraData :=
  { fact_deployment := [], fact_pr := none, fact_incident := none,
    dora_events := none,
    dora_summary_daily := some [mkRollup 0 0 0 0 60] }

/-- Counterexample to C1 as stated: the rollup sequence is non-empty,
the claimed mttr (sum of `mttr_min / 60` over all rows) is `1`, but the
code returns `0` because no row has `deploys > 0`. -/
theorem rollup_mttr_all_zero_deploys_cex :
    (filterDataByDays storeC1cex none 0).dora_summary_daily ≠ [] ∧
    (calculateDoraMetrics (filterDataByDays storeC1cex none 0) storeC1cex
        none 0).mttr = 0 ∧
    (filterDataByDays storeC1cex none 0).dora_summary_daily.foldl
        (fun sum d => sum + d.mttr_min / 60) (0 : ℚ) = 1 ∧
    (0 : ℚ) ≠ 1 := by
  have h0 : (filterDataByDays storeC1cex none 0).dora_summary_daily ≠ [] := by
    intro hcontra
    simp [filterDataByDays, storeC1cex, mkRollup] at hcontra
  refine ⟨h0, ?_, ?_, by norm_num⟩
  · norm_num [calculateDoraMetrics, deriveAggregates, filterDataByDays,
      storeC1cex, mkRollup]
  · norm_num [filterDataByDays, storeC1cex, mkRollup]

/-! ## C6 -/

/-- C6 (amended): every trend splits the view's rollup sequence at
`floor(length/2)`, treats the *first* half as the "recent" half and the
rest as "previous", and returns
`(mean(recent) − mean(previous)) / mean(previous) × 100`, with `0`
whenever either half is empty or the previous mean is `0`.  Since the
filter returns rollups in ascending date order (the stored order being
newest-first), the first half is the chronologically *older* half — the
half farther from "now" — not the closer one. -/
theorem trend_split_spec :
    (∀ (v : FilteredData) (store : DoraData) (days : Option Int) (now : Int),
      (calculateDoraMetrics v store days now).deploymentFrequencyTrend =
        getTrend
          ((v.dora_summary_daily.take
            (v.dora_summary_daily.length / 2)).map (fun d => d.deploys))
          ((v.dora_summary_daily.drop
            (v.dora_summary_daily.length / 2)).map (fun d => d.deploys)) ∧
      (calculateDoraMetrics v store days now).leadTimeTrend =
        getTrend
          ((v.dora_summary_daily.take
            (v.dora_summary_daily.length / 2)).map (fun d => d.avg_lt_hours))
          ((v.dora_summary_daily.drop
            (v.dora_summary_daily.length / 2)).map (fun d => d.avg_lt_hours)) ∧
      (calculateDoraMetrics v store days now).cfrTrend =
        getTrend
          ((v.dora_summary_daily.take
            (v.dora_summary_daily.length / 2)).map (fun d => d.cfr))
          ((v.dora_summary_daily.drop
            (v.dora_summary_daily.length / 2)).map (fun d => d.cfr)) ∧
      (calculateDoraMetrics v store days now).mttrTrend =
        getTrend
          ((v.dora_summary_daily.take
            (v.dora_summary_daily.length / 2)).map (fun d => d.mttr_min / 60))
          ((v.dora_summary_daily.drop
            (v.dora_summary_daily.length / 2)).map
              (fun d => d.mttr_min / 60))) ∧
    (∀ current previous : List ℚ,
      current = [] ∨ previous = [] ∨
        previous.foldl (fun sum d => sum + d) (0 : ℚ) / previous.length = 0 →
      getTrend current previous = 0) ∧
    (∀ l : List DailyRollup, l.Pairwise (fun a b => a.date ≤ b.date) →
      ∀ a ∈ l.take (l.length / 2), ∀ b ∈ l.drop (l.length / 2),
        a.date ≤ b.date) := by
  refine ⟨fun v store days now => ⟨rfl, rfl, rfl, rfl⟩, ?_, ?_⟩
  · intro current previous h
    rcases h with h | h | h
    · simp [getTrend, h]
    · simp [getTrend, h]
    · simp [getTrend, h]
  · intro l h
    exact pairwise_take_drop _ l h _

/-- Witness for C6: the zero guard applied at a concrete empty
"recent" half. -/
theorem trend_split_spec_witness : getTrend [] [1] = 0 :=
  trend_split_spec.2.1 [] [1] (Or.inl rfl)

/-- Store refuting the "first half = closer to now" reading: rollups
stored newest-first with distinct dates and deploy counts. -/
def storeC6 : DoraData :=
  { fact_deployment := [], fact_pr := none, fact_incident := none,
    dora_events := none,
    dora_summary_daily :=
      some [mkRollup (2 * dayMs) 4 0 2 0, mkRollup dayMs 2 0 4 0] }

/-- Counterexample to C6 as stated: after the filter's reversal the
view's rollups are in ascending date order `[day 1, day 2]`, so the
code's "recent" half is the *older* row (2 deploys) and the trend is
`(2 − 4) / 4 × 100 = −50`; reading "recent = the half closer to now"
(the 4-deploy row) would instead give `(4 − 2) / 2 × 100 = 100`. -/
theorem trend_recent_half_cex :
    (calculateDoraMetrics (filterDataByDays storeC6 none (3 * dayMs)) storeC6
        none (3 * dayMs)).deploymentFrequencyTrend = -50 ∧
    (filterDataByDays storeC6 none (3 * dayMs)).dora_summary_daily.map
        (fun r => r.date) = [dayMs, 2 * dayMs] ∧
    getTrend [4] [2] = 100 ∧
    ((-50 : ℚ) ≠ 100) := by
  refine ⟨?_, by decide, by norm_num [getTrend], by norm_num⟩
  norm_num [calculateDoraMetrics, filterDataByDays, storeC6, mkRollup,
    getTrend]

/-! ## C10 -/

/-- Store for the C10 possibility part: an older deployment with a
positive duration and a most-recent deployment with a negative one. -/
def storeC10 : DoraData :=
  { fact_deployment :=
      [mkDeployment 1 0 hourMs "success",
       mkDeployment 2 dayMs (dayMs - hourMs) "success"]
    fact_pr := none, fact_incident := none, dora_events := none,
    dora_summary_daily := none }

/-- C10: `0 ≤ minLeadTime ≤ maxLeadTime` always (both `0` when no
deployment has a positive duration), while `lastDeploymentLeadTime` is
the raw duration in hours of the most recent deployment (maximal
`created_at_utc`, head of the stable descending sort) with no positivity
filter — so it can be negative while the extremes are positive. -/
theorem leadTime_extremes_spec :
    (∀ (v : FilteredData) (store : DoraData) (days : Option Int) (now : Int),
      0 ≤ (calculateDoraMetrics v store days now).minLeadTime ∧
      (calculateDoraMetrics v store days now).minLeadTime ≤
        (calculateDoraMetrics v store days now).maxLeadTime ∧
      (leadTimesOf v.fact_deployment = [] →
        (calculateDoraMetrics v store days now).minLeadTime = 0 ∧
        (calculateDoraMetrics v store days now).maxLeadTime = 0) ∧
      (∀ d0 : Deployment,
        (sortDeploymentsDesc v.fact_deployment).head? = some d0 →
        (∀ d ∈ v.fact_deployment,
          d.created_at_utc ≤ d0.created_at_utc) ∧
        (calculateDoraMetrics v store days now).lastDeploymentLeadTime =
          ((d0.finished_at_utc - d0.created_at_utc : Int) : ℚ) /
            (hourMs : ℚ))) ∧
    (0 < (calculateDoraMetrics (filterDataByDays storeC10 none (2 * dayMs))
        storeC10 none (2 * dayMs)).minLeadTime ∧
      (calculateDoraMetrics (filterDataByDays storeC10 none (2 * dayMs))
        storeC10 none (2 * dayMs)).lastDeploymentLeadTime < 0) := by
  constructor
  · intro v store days now
    have hmin : (calculateDoraMetrics v store days now).minLeadTime =
        if (leadTimesOf v.fact_deployment).length > 0 then
          jsMin (leadTimesOf v.fact_deployment)
        else 0 := rfl
    have hmax : (calculateDoraMetrics v store days now).maxLeadTime =
        if (leadTimesOf v.fact_deployment).length > 0 then
          jsMax (leadTimesOf v.fact_deployment)
        else 0 := rfl
    have hlast : (calculateDoraMetrics v store days now).lastDeploymentLeadTime =
        (match (sortDeploymentsDesc v.fact_deployment).head? with
          | some lastDeploy =>
              ((lastDeploy.finished_at_utc - lastDeploy.created_at_utc :
                Int) : ℚ) / (hourMs : ℚ)
          | none => 0) := rfl
    have hpos : ∀ y ∈ leadTimesOf v.fact_deployment, 0 < y := by
      intro y hy
      unfold leadTimesOf at hy
      exact of_decide_eq_true (List.mem_filter.mp hy).2
    have hlastpart : ∀ d0 : Deployment,
        (sortDeploymentsDesc v.fact_deployment).head? = some d0 →
        (∀ d ∈ v.fact_deployment,
          d.created_at_utc ≤ d0.created_at_utc) ∧
        (calculateDoraMetrics v store days now).lastDeploymentLeadTime =
          ((d0.finished_at_utc - d0.created_at_utc : Int) : ℚ) /
            (hourMs : ℚ) := by
      intro d0 h
      refine ⟨head_sortDeploymentsDesc_max _ d0 h, ?_⟩
      rw [hlast, h]
    by_cases hE : leadTimesOf v.fact_deployment = []
    · have hl : ¬((leadTimesOf v.fact_deployment).length > 0) := by
        simp [hE]
      rw [hmin, hmax, if_neg hl, if_neg hl]
      exact ⟨le_refl 0, le_refl 0, fun _ => ⟨rfl, rfl⟩, hlastpart⟩
    · have hl : (leadTimesOf v.fact_deployment).length > 0 :=
        List.length_pos.mpr hE
      have hmem := jsMin_mem _ hE
      rw [hmin, hmax, if_pos hl, if_pos hl]
      exact ⟨le_of_lt (hpos _ hmem), le_jsMax _ _ hmem,
        fun h => absurd h hE, hlastpart⟩
  · constructor
    · norm_num [calculateDoraMetrics, filterDataByDays, storeC10,
        mkDeployment, leadTimesOf, jsMin, hourMs, dayMs]
    · norm_num [calculateDoraMetrics, filterDataByDays, storeC10,
        mkDeployment, sortDeploymentsDesc, List.insertionSort,
        List.orderedInsert, deployDescLE, hourMs, dayMs]

/-- Witness for C10 at the empty view: no positive duration, so both
extremes are `0`. -/
theorem leadTime_extremes_spec_witness :
    leadTimesOf (FilteredData.mk [] [] [] [] []).fact_deployment = [] ∧
    (calculateDoraMetrics (FilteredData.mk [] [] [] [] []) emptyStore none
      0).minLeadTime = 0 :=
  ⟨rfl, ((leadTime_extremes_spec.1 (FilteredData.mk [] [] [] [] [])
    emptyStore none 0).2.2.1 rfl).1⟩

/-! ## C2 -/

/-- Store exhibiting the null-window mutation: two deployments stored in
ascending `created_at_utc` order. -/
def storeC2 : DoraData :=
  { fact_deployment :=
      [mkDeployment 1 0 0 "success", mkDeployment 2 dayMs dayMs "success"]
    fact_pr := none, fact_incident := none, dora_events := none,
    dora_summary_daily := none }

/-- C2 evaluated on the code: with the null window the view aliases
the store array `fact_deployment`, and the in-place
`sort` reorders the store (here `[old, new]` becomes `[new, old]`), so
the store is *not* left unchanged; a finite window leaves the store
untouched because every view collection is a fresh `filter` result. -/
theorem store_mutation_on_null_window :
    storeAfterFilterAndMetrics storeC2 none 0 ≠ storeC2 ∧
    (storeAfterFilterAndMetrics storeC2 none 0).fact_deployment =
      [mkDeployment 2 dayMs dayMs "success",
       mkDeployment 1 0 0 "success"] ∧
    (∀ (data : DoraData) (n now : Int),
      storeAfterFilterAndMetrics data (some n) now = data) :=
  ⟨by decide, by decide, fun _ _ _ => rfl⟩

/-! ## C8 -/

/-- C8 (amended): `parseCSV` ignores unknown columns (appending an
unrecognised column leaves the parsed record unchanged), defaults a
*missing or empty* numeric field to `0` via the `|| "0"` fallback while
still including the row, and on scenario E a row missing `prs_opened`
parses with `prsOpened = 0` and counts in the totals; but a malformed
non-integer field yields `NaN` (modelled `none`), not `0`. -/
theorem parseCSV_defaults_spec :
    (∀ headers values : List String,
      "prs_opened" ∉ headers.map jsTrim →
      (parseRow headers values).prsOpened = some 0) ∧
    (∀ (headers values : List String) (k v : String),
      values.length = headers.length →
      jsTrim k ∉ ["repo_name", "display_name", "prs_opened", "prs_merged",
        "issues_ready_for_qa", "issues_qa_completed", "fetched_at"] →
      parseRow (headers ++ [k]) (values ++ [v]) = parseRow headers values) ∧
    ((parseCSV "repo_name,display_name,prs_merged\nr1,Repo One,5").map
        (fun m => m.prsOpened) = [some 0] ∧
      (parseCSV "repo_name,display_name,prs_merged\nr1,Repo One,5").length =
        1 ∧
      totalPrsOpened
        (parseCSV "repo_name,display_name,prs_merged\nr1,Repo One,5") =
        some 0) ∧
    ((parseCSV "repo_name,prs_opened\nalpha,abc").map (fun m => m.prsOpened) =
      [none]) := by
  refine ⟨?_, ?_, by refine ⟨by decide, by decide, by decide⟩, by decide⟩
  · intro headers values hmem
    have hnone : rowLookup (buildRow headers values) "prs_opened" = none :=
      rowLookup_of_not_mem _ _
        (fun p hp he => hmem (he ▸ buildRow_fst_mem headers values p hp))
    show parseIntJS
      (jsOrDefault (rowLookup (buildRow headers values) "prs_opened") "0") =
      some 0
    rw [hnone]
    decide
  · intro headers values k v hlen hk
    simp only [List.mem_cons, List.not_mem_nil, or_false, not_or] at hk
    obtain ⟨hk1, hk2, hk3, hk4, hk5, hk6, hk7⟩ := hk
    have hrow := buildRow_append_one headers values k v hlen
    simp only [parseRow]
    rw [hrow,
      rowLookup_append_ne (buildRow headers values) (jsTrim k, jsTrim v)
        "repo_name" hk1,
      rowLookup_append_ne (buildRow headers values) (jsTrim k, jsTrim v)
        "display_name" hk2,
      rowLookup_append_ne (buildRow headers values) (jsTrim k, jsTrim v)
        "prs_opened" hk3,
      rowLookup_append_ne (buildRow headers values) (jsTrim k, jsTrim v)
        "prs_merged" hk4,
      rowLookup_append_ne (buildRow headers values) (jsTrim k, jsTrim v)
        "issues_ready_for_qa" hk5,
      rowLookup_append_ne (buildRow headers values) (jsTrim k, jsTrim v)
        "issues_qa_completed" hk6,
      rowLookup_append_ne (buildRow headers values) (jsTrim k, jsTrim v)
        "fetched_at" hk7]

/-- Witness for C8: the missing-column default applied at a concrete
header list without `prs_opened`. -/
theorem parseCSV_defaults_spec_witness :
    "prs_opened" ∉ (["repo_name", "prs_merged"].map jsTrim) ∧
    (parseRow ["repo_name", "prs_merged"] ["alpha", "5"]).prsOpened =
      some 0 :=
  ⟨by decide,
    parseCSV_defaults_spec.1 ["repo_name", "prs_merged"] ["alpha", "5"]
      (by decide)⟩

/-- Counterexample to C8 as stated: the malformed integer field `abc`
parses to `NaN` (`none`), not `0`, though the row is still included. -/
theorem parseCSV_malformed_nan_cex :
    (parseCSV "repo_name,prs_opened\nalpha,abc").map (fun m => m.prsOpened) =
      [none] ∧
    (parseCSV "repo_name,prs_opened\nalpha,abc").length = 1 ∧
    (none : Option Int) ≠ some 0 := by
  refine ⟨by decide, by decide, by decide⟩

/-- Witness for C7: the unbounded-window rule applied at the empty
store, whose failure rate is taken as zero. -/
theorem cfrTrendStatus_spec_witness :
    calculateCFRTrendStatus (FilteredData.mk [] [] [] [] []) emptyStore none
      0 = .good :=
  (cfrTrendStatus_spec.1 (FilteredData.mk [] [] [] [] []) emptyStore 0).mpr
    (by norm_num [emptyStore, failureCount])
